import Mathlib

/-!
Verification of the block construction core (block_tools.py) against its
natural-language specification.

Shallow embedding conventions:
- Hashes, keys, signatures and byte strings are modelled as Nat unless the
  byte-level structure matters (the VDF oracle output is a List Nat of bytes).
- Python ints are unbounded, and the uintN / int512 wrappers from
  src/util/ints (external to this repository snapshot) do not change the
  value on construction, so they are modelled as the identity on Int / Nat.
- External collaborators (VDF prover, proof-of-space prover, difficulty
  adjustment, BLS signatures, BIP158 filter, Merkle sets, hashing) are
  modelled as oracle function parameters; all theorems quantify over them.
-/

namespace BlockToolsModel

/-! # is_transaction_block (block_tools.py lines 135-145) -/

/-- Mirrors `is_transaction_block`: the first sub-block whose
infusion-challenge-point total iterations exceed the given previous total
iterations is a (transaction) block.  `uint128(...)` is a value-preserving
wrapper, so the arithmetic is on Int. -/
def is_transaction_block (overflow : Bool)
    (total_iters ip_iters icp_iters slot_iters curr_total_iters : Int) : Bool :=
  let our_icp_total_iters : Int :=
    if overflow then total_iters - ip_iters + icp_iters - slot_iters
    else total_iters - ip_iters + icp_iters
  decide (our_icp_total_iters > curr_total_iters)

/-! # get_vdf_proof (block_tools.py lines 862-884) -/

/-- Python `int.from_bytes(bs, "big", signed=True)`: big-endian base-256
value, interpreted in two-complement form (negative when the top bit of the
first byte is set; the empty string decodes to 0). -/
def intFromBytesSignedBE (bs : List Nat) : Int :=
  let u : Nat := bs.foldl (fun acc b => acc * 256 + b) 0
  if 256 ^ bs.length ≤ 2 * u then (u : Int) - (256 : Int) ^ bs.length else (u : Int)

structure ClassgroupElement where
  a : Int
  b : Int
deriving DecidableEq

structure VDFProof where
  witness : Nat
  witness_type : Nat
deriving DecidableEq

/-- Mirrors `get_vdf_proof`.  `prove` is the external chiavdf oracle
(arguments in the order of the Python call: challenge hash, a, b,
discriminant size in bits, iteration count) returning raw bytes, and
`cg_hash` is the external streamable hash of a classgroup element
(`output.get_hash()`). -/
def get_vdf_proof (prove : Nat → Nat → Nat → Nat → Nat → List Nat)
    (cg_hash : ClassgroupElement → Nat)
    (challenge_hash a b number_iters discriminant_size_bits : Nat) : VDFProof :=
  let int_size := (discriminant_size_bits + 16) >>> 4
  let result := prove challenge_hash a b discriminant_size_bits number_iters
  let output : ClassgroupElement :=
    ⟨intFromBytesSignedBE (List.take int_size result),
     intFromBytesSignedBE (List.take int_size (List.drop int_size result))⟩
  ⟨cg_hash output, 1⟩

/-! # Claim theorems for C1 and C9 -/

/-- Claim C1: a block is marked a transaction block iff its
icp-total-iterations strictly exceed the previous transaction block's
recorded total iterations, where icp-total-iterations is
total_iters - ip_iters + icp_iters, with slot_iters additionally
subtracted when the block is an overflow sub-block. -/
theorem c1_is_transaction_block_iff (overflow : Bool)
    (total_iters ip_iters icp_iters slot_iters curr_total_iters : Int) :
    is_transaction_block overflow total_iters ip_iters icp_iters slot_iters
        curr_total_iters = true ↔
      total_iters - ip_iters + icp_iters - (if overflow then slot_iters else 0)
        > curr_total_iters := by
  cases overflow <;> simp [is_transaction_block]

/-- Claim C9: the raw byte output of the VDF prover oracle is split into
exactly two signed big-endian integers of (discriminant_bits+16)>>4 bytes
each, taken from byte ranges [0, int_size) and [int_size, 2*int_size),
which form the classgroup element whose hash becomes the VDFProof witness
(witness_type 1); together the two ranges are exactly the first
2*int_size bytes. -/
theorem c9_vdf_split (prove : Nat → Nat → Nat → Nat → Nat → List Nat)
    (cg_hash : ClassgroupElement → Nat)
    (challenge_hash a b number_iters discriminant_size_bits : Nat) :
    get_vdf_proof prove cg_hash challenge_hash a b number_iters
        discriminant_size_bits =
      ⟨cg_hash
        ⟨intFromBytesSignedBE
          (List.take ((discriminant_size_bits + 16) / 16)
            (prove challenge_hash a b discriminant_size_bits number_iters)),
         intFromBytesSignedBE
          (List.take ((discriminant_size_bits + 16) / 16)
            (List.drop ((discriminant_size_bits + 16) / 16)
              (prove challenge_hash a b discriminant_size_bits number_iters)))⟩,
       1⟩
    ∧ (discriminant_size_bits + 16) >>> 4 = (discriminant_size_bits + 16) / 16
    ∧ ∀ raw : List Nat,
        List.take ((discriminant_size_bits + 16) >>> 4) raw
          ++ List.take ((discriminant_size_bits + 16) >>> 4)
              (List.drop ((discriminant_size_bits + 16) >>> 4) raw)
        = List.take (2 * ((discriminant_size_bits + 16) >>> 4)) raw := by
  have hshift : (discriminant_size_bits + 16) >>> 4 = (discriminant_size_bits + 16) / 16 := by
    rw [Nat.shiftRight_eq_div_pow]
  refine ⟨?_, hshift, fun raw => ?_⟩
  · simp only [get_vdf_proof, hshift]
  · rw [two_mul, List.take_add]

/-! # get_prams_from_plots (block_tools.py lines 803-859)

One call works with a fixed challenge hash, so the external oracles are
specialised to it: for each plot of the sorted plot list,
`can_create_proof` is the outcome of the zero-bits filter
(`ProofOfSpace.can_create_proof`) and `qualities` is the list returned by
`prover.get_qualities_for_challenge`.  `rnd i` is the i-th draw of the
seeded `random.randint(0, len(plots) - 1)`; the draw is in range, which
the embedding records by reducing it modulo the plot count. -/

structure PlotInfo where
  plot_id : Nat
  can_create_proof : Bool
  qualities : List Nat
deriving DecidableEq

/-- One iteration of the selection loop: the drawn plot is kept when it
passes the zero-bits filter and returns a non-empty quality list
(`if not ccp: continue` followed by `if len(qualities) > 0`), otherwise
the iteration leaves the selection unchanged. -/
def attemptPlot (plots : List PlotInfo) (rnd : Nat → Nat) (i : Nat) :
    Option PlotInfo :=
  match plots[rnd i % plots.length]? with
  | none => none
  | some p =>
      if p.can_create_proof && !p.qualities.isEmpty then some p else none

/-- The selection loop `for i in range(len(plots) * 3)`.  The `break`
after a successful draw is commented out in the source, so a later
successful draw overwrites an earlier one. -/
def select_plot (plots : List PlotInfo) (rnd : Nat → Nat) : Option PlotInfo :=
  (List.range (3 * plots.length)).foldl
    (fun selected i =>
      match attemptPlot plots rnd i with
      | some p => some p
      | none => selected)
    none

inductive PlotError where
  | assertionFailed
  | noProofs
deriving DecidableEq

/-- The data returned on success: iteration count from the external
quality-to-iterations transform, the selected plot (standing for the
ProofOfSpace assembled from it), the selected quality
(`qualities[0]` of the selected plot), and the generated plot public key. -/
structure PlotParams where
  number_iters : Nat
  selected_plot : PlotInfo
  selected_quality : Nat
  plot_pk : Nat
deriving DecidableEq

/-- Mirrors `get_prams_from_plots`: run the selection loop; the
`assert selected_plot_info is not None` fires when no draw succeeded,
the RuntimeError for a missing quality follows, and otherwise the
proof-of-space data is assembled from the selected plot.
`calc_iters` is the external `calculate_iterations` and `gen_pk` the
external `generate_plot_public_key`, both specialised to this call. -/
def get_prams_from_plots (plots : List PlotInfo) (rnd : Nat → Nat)
    (calc_iters : PlotInfo → Nat) (gen_pk : PlotInfo → Nat) :
    Except PlotError PlotParams :=
  match select_plot plots rnd with
  | none => .error .assertionFailed
  | some p =>
      match p.qualities with
      | [] => .error .noProofs
      | q :: _ => .ok ⟨calc_iters p, p, q, gen_pk p⟩

/-- A plot yields a quality for the challenge when it passes the
zero-bits filter and its quality list is non-empty. -/
def plotYields (p : PlotInfo) : Bool :=
  p.can_create_proof && !p.qualities.isEmpty

lemma attemptPlot_eq_yields (plots : List PlotInfo) (rnd : Nat → Nat) (i : Nat) :
    attemptPlot plots rnd i =
      (plots[rnd i % plots.length]?).bind
        (fun p => if plotYields p then some p else none) := by
  unfold attemptPlot plotYields
  cases plots[rnd i % plots.length]? <;> rfl

lemma select_plot_eq_findSome (plots : List PlotInfo) (rnd : Nat → Nat) :
    ∀ (l : List Nat) (acc : Option PlotInfo),
      l.foldl
        (fun selected i =>
          match attemptPlot plots rnd i with
          | some p => some p
          | none => selected)
        acc
      = (l.reverse.findSome? (attemptPlot plots rnd)).or acc := by
  intro l
  induction l with
  | nil => intro acc; simp
  | cons a l ih =>
      intro acc
      simp only [List.foldl_cons, List.reverse_cons, List.findSome?_append, ih]
      cases h : attemptPlot plots rnd a <;>
        cases hl : l.reverse.findSome? (attemptPlot plots rnd) <;>
          simp [List.findSome?, h, Option.or]

lemma select_plot_spec (plots : List PlotInfo) (rnd : Nat → Nat) :
    select_plot plots rnd
      = (List.range (3 * plots.length)).reverse.findSome? (attemptPlot plots rnd) := by
  unfold select_plot
  rw [select_plot_eq_findSome]
  cases (List.range (3 * plots.length)).reverse.findSome? (attemptPlot plots rnd) <;> rfl

/-- Claim C4 counterexample data: two plots that both pass the filter and
both return qualities, scanned with the identity draw sequence. -/
def c4plot0 : PlotInfo := ⟨0, true, [7]⟩

def c4plot1 : PlotInfo := ⟨1, true, [9]⟩

def c4plots : List PlotInfo := [c4plot0, c4plot1]

def c4rnd : Nat → Nat := fun i => i

/-- Claim C4 counterexample: with two eligible plots and the draw sequence
0,1,0,1,0,1, the first eligible quality found is 7 (plot 0 at attempt 0),
but the value retained for the block is 9 (plot 1, the last eligible
attempt), because the break after a successful draw is commented out in
the source.  This refutes the claim that the FIRST eligible quality found
is the one retained. -/
theorem c4_counterexample :
    attemptPlot c4plots c4rnd 0 = some c4plot0
    ∧ c4plot0.qualities = [7]
    ∧ (get_prams_from_plots c4plots c4rnd (fun _ => 0) (fun _ => 0)).map
        (fun r => r.selected_quality) = .ok 9
    ∧ (9 : Nat) ≠ 7 := by
  exact ⟨by decide, by decide, by rfl, by decide⟩

/-- Claim C4 as amended: proof selection iterates candidate plots in a
draw-sequence-controlled order bounded to exactly 3 x plot_count attempts,
and the LAST eligible attempt (the latest drawn plot passing the zero-bits
filter with a non-empty quality list) is the one retained; no exhaustive
best-of selection is performed. -/
theorem c4_last_eligible_selected (plots : List PlotInfo) (rnd : Nat → Nat) :
    select_plot plots rnd
      = (List.range (3 * plots.length)).reverse.findSome? (attemptPlot plots rnd) :=
  select_plot_spec plots rnd

lemma select_plot_yields (plots : List PlotInfo) (rnd : Nat → Nat)
    (p : PlotInfo) (h : select_plot plots rnd = some p) : plotYields p = true := by
  rw [select_plot_spec] at h
  rcases List.exists_of_findSome?_eq_some h with ⟨i, _, hi⟩
  rw [attemptPlot_eq_yields] at hi
  cases hg : plots[rnd i % plots.length]? with
  | none => rw [hg] at hi; cases hi
  | some pp =>
      rw [hg] at hi
      simp only [Option.some_bind] at hi
      by_cases hyy : plotYields pp
      · rw [if_pos hyy] at hi; cases hi; exact hyy
      · rw [if_neg hyy] at hi; cases hi

lemma get_prams_error_iff_select_none (plots : List PlotInfo) (rnd : Nat → Nat)
    (calc_iters : PlotInfo → Nat) (gen_pk : PlotInfo → Nat) :
    (∃ e, get_prams_from_plots plots rnd calc_iters gen_pk = .error e) ↔
      select_plot plots rnd = none := by
  constructor
  · rintro ⟨e, he⟩
    cases hs : select_plot plots rnd with
    | none => rfl
    | some p =>
        exfalso
        have hy := select_plot_yields plots rnd p hs
        unfold plotYields at hy
        unfold get_prams_from_plots at he
        rw [hs] at he
        cases hq : p.qualities with
        | nil => rw [hq] at hy; simp at hy
        | cons q qs => simp only [hq] at he; cases he
  · intro hs
    refine ⟨.assertionFailed, ?_⟩
    unfold get_prams_from_plots
    rw [hs]

lemma select_plot_none_iff (plots : List PlotInfo) (rnd : Nat → Nat) :
    select_plot plots rnd = none ↔
      ∀ i, i < 3 * plots.length → attemptPlot plots rnd i = none := by
  rw [select_plot_spec, List.findSome?_eq_none_iff]
  constructor
  · intro h i hi
    exact h i (by rw [List.mem_reverse, List.mem_range]; exact hi)
  · intro h i hi
    exact h i (by rw [List.mem_reverse, List.mem_range] at hi; exact hi)

/-- Claim C8: the embedded selection fails (the assertion on a missing
selection fires, reaching the caller as an exception) exactly when no plot
yields a quality for the challenge, provided every plot index is drawn at
least once within the 3 x plot_count attempts; and no proof-of-space data
is produced in that case (the failure branch of Except carries none). -/
theorem c8_no_proof_error (plots : List PlotInfo) (rnd : Nat → Nat)
    (calc_iters : PlotInfo → Nat) (gen_pk : PlotInfo → Nat)
    (cover : ∀ j, j < plots.length →
      ∃ i, i < 3 * plots.length ∧ rnd i % plots.length = j) :
    ((∃ e, get_prams_from_plots plots rnd calc_iters gen_pk = .error e) ↔
      ∀ p ∈ plots, plotYields p = false)
    ∧ ∀ e, get_prams_from_plots plots rnd calc_iters gen_pk = .error e →
        ∀ r, get_prams_from_plots plots rnd calc_iters gen_pk ≠ .ok r := by
  refine ⟨?_, fun e he r hr => by rw [he] at hr; cases hr⟩
  rw [get_prams_error_iff_select_none, select_plot_none_iff]
  constructor
  · intro hall p hp
    rcases (List.mem_iff_getElem).mp hp with ⟨j, hj, rfl⟩
    rcases cover j hj with ⟨i, hi, hdraw⟩
    have hnone := hall i hi
    rw [attemptPlot_eq_yields, hdraw, List.getElem?_eq_getElem hj] at hnone
    simp only [Option.some_bind] at hnone
    by_cases hyy : plotYields plots[j]
    · rw [if_pos hyy] at hnone; cases hnone
    · simpa using hyy
  · intro hnone i _
    rw [attemptPlot_eq_yields]
    cases hg : plots[rnd i % plots.length]? with
    | none => rfl
    | some p =>
        simp only [Option.some_bind]
        rw [if_neg (by rw [hnone p (List.getElem?_mem hg)]; exact Bool.false_ne_true)]

/-- Claim C8 witness: a single plot that fails the zero-bits filter, with
a constant draw sequence covering the single index; the selection fails. -/
theorem c8_witness :
    (∀ j, j < ([⟨0, false, []⟩] : List PlotInfo).length →
      ∃ i, i < 3 * ([⟨0, false, []⟩] : List PlotInfo).length
        ∧ (fun _ : Nat => 0) i % ([⟨0, false, []⟩] : List PlotInfo).length = j)
    ∧ ∃ e, get_prams_from_plots [⟨0, false, []⟩] (fun _ => 0)
        (fun _ => 0) (fun _ => 0) = .error e := by
  have cover : ∀ j, j < ([⟨0, false, []⟩] : List PlotInfo).length →
      ∃ i, i < 3 * ([⟨0, false, []⟩] : List PlotInfo).length
        ∧ (fun _ : Nat => 0) i % ([⟨0, false, []⟩] : List PlotInfo).length = j := by
    intro j hj
    exact ⟨0, by simp, by simp at hj ⊢; omega⟩
  refine ⟨cover, ?_⟩
  exact (c8_no_proof_error [⟨0, false, []⟩] (fun _ => 0) (fun _ => 0)
    (fun _ => 0) cover).1.mpr (by decide)

/-! # get_consecutive_blocks (block_tools.py lines 295-424)

The per-block loop is embedded as a step function on the mutable tracker
state, starting from the genesis branch (lines 307-317: deficit set to 5,
ips set to IPS_STARTING, difficulty DIFFICULTY_STARTING, genesis block
weight DIFFICULTY_STARTING).  External calls are oracles indexed by the
loop step: get_next_slot_iters, the number_iters returned by
get_prams_from_plots at a slot crossing, get_next_difficulty,
get_next_ips, and the sub-block count read by the boundary check (the
source reads len(self.sub_blocks); the loop writes only its local
sub_blocks variable, so the tested count is exposed as an oracle and the
theorems below hold for every value of it). -/

structure SlotTuple where
  challenge_slot : Unit
  reward_chain_end_of_slot : Unit
  end_of_slot_proofs : Unit
deriving DecidableEq

/-- The tuple appended at a slot crossing (line 359-361: freshly
constructed ChallengeSlot, RewardChainEndOfSlot and EndOfSlotProofs). -/
def slotTupleMk : SlotTuple := ⟨(), (), ()⟩

structure ChainOracles where
  slot_iters_fn : Nat → Nat
  new_iters_fn : Nat → Nat
  genesis_iters : Nat
  sub_block_count : Nat → Nat
  next_difficulty_fn : Nat → Nat
  next_ips_fn : Nat → Nat
  difficulty_starting : Nat
  ips_starting : Nat

structure ChainState where
  deficit : Int
  number_iters : Nat
  slot_iters : Nat
  finished_slots : List SlotTuple
  curr_sub_epoch : Nat
  curr_epoch : Nat
  difficulty : Nat
  ips : Nat
  prev_weight : Nat
deriving DecidableEq

/-- The per-block record of the fields the claims are about, as produced
by create_next_block (lines 546-672): the RewardChainSubBlock weight is
previous_weight + difficulty and its total_iters is self.number_iters;
the challenge-chain infusion-point proof is built only when the deficit
read inside create_next_block is not positive; the FullBlock receives
self.finished_slots as read after the slot-crossing branch.  The two
ghost fields crossed_slot and tuples_appended log whether the
slot-crossing branch ran and how many tuples its append call added. -/
structure BlockRec where
  weight : Nat
  total_iters : Nat
  has_challenge_chain_ip_proof : Bool
  finished_slots : List SlotTuple
  deficit_at_creation : Int
  crossed_slot : Bool
  tuples_appended : Nat
deriving DecidableEq

/-- Line 376: `if len(self.sub_blocks) == 384 * (self.curr_sub_epoch + 1)`. -/
def sub_epoch_check (count curr_sub_epoch : Nat) : Bool :=
  count == 384 * (curr_sub_epoch + 1)

/-- Line 378: `if len(self.sub_blocks) == 32256 * (self.curr_epoch + 1)`. -/
def epoch_check (count curr_epoch : Nat) : Bool :=
  count == 32256 * (curr_epoch + 1)

/-- Lines 375-393: the nested sub-epoch / epoch boundary checks; only
when both fire are difficulty and ips replaced by the values of the
external adjustment functions. -/
def boundary_update (count curr_sub_epoch curr_epoch difficulty ips
    next_difficulty next_ips : Nat) : Nat × Nat :=
  if sub_epoch_check count curr_sub_epoch then
    if epoch_check count curr_epoch then (next_difficulty, next_ips)
    else (difficulty, ips)
  else (difficulty, ips)

/-- Lines 395-397: `if self.deficit > 0: self.deficit = self.deficit - 1`. -/
def deficit_after_dec (d : Int) : Int := if d > 0 then d - 1 else d

/-- Lines 586-602 in create_next_block: the challenge-chain
infusion-point proof is omitted iff the deficit is still positive. -/
def has_proof_flag (d : Int) : Bool := if d > 0 then false else true

/-- Lines 413-420: after the block is built, a block carrying the
challenge-chain infusion-point proof resets the deficit to 5. -/
def deficit_after_reset (d : Int) : Int := if has_proof_flag d then 5 else d

/-- One iteration of the loop in get_consecutive_blocks for loop step
`step`, in source order: slot_iters update, slot-crossing branch
(append then reassignment of self.finished_slots to a fresh empty list,
and number_iters replaced by the new proof parameters), boundary checks,
deficit decrement, create_next_block, deficit reset on a challenge-chain
block. -/
def chainStep (o : ChainOracles) (step : Nat) (s : ChainState) :
    ChainState × BlockRec :=
  let slot_iters := o.slot_iters_fn step
  let crossed := decide (s.number_iters > slot_iters)
  let fs_after_append :=
    if crossed then s.finished_slots ++ [slotTupleMk] else s.finished_slots
  let fs := if crossed then [] else fs_after_append
  let number_iters := if crossed then o.new_iters_fn step else s.number_iters
  let du := boundary_update (o.sub_block_count step) s.curr_sub_epoch
    s.curr_epoch s.difficulty s.ips (o.next_difficulty_fn step)
    (o.next_ips_fn step)
  let d1 := deficit_after_dec s.deficit
  let weight := s.prev_weight + du.1
  (⟨deficit_after_reset d1, number_iters, slot_iters, fs, s.curr_sub_epoch,
      s.curr_epoch, du.1, du.2, weight⟩,
   ⟨weight, number_iters, has_proof_flag d1, fs, d1, crossed,
      if crossed then 1 else 0⟩)

/-- The tracker state after the genesis branch (lines 307-317 together
with the initialisation in the constructor): deficit 5, number_iters from
the proof parameters drawn while building genesis, empty finished-slot
buffer, slot/epoch counters at 1, starting difficulty and ips, and the
genesis block weight DIFFICULTY_STARTING. -/
def genesisState (o : ChainOracles) : ChainState :=
  ⟨5, o.genesis_iters, 0, [], 1, 1, o.difficulty_starting, o.ips_starting,
   o.difficulty_starting⟩

def stateAfter (o : ChainOracles) : Nat → ChainState
  | 0 => genesisState o
  | k + 1 => (chainStep o k (stateAfter o k)).1

def blockAt (o : ChainOracles) (k : Nat) : BlockRec :=
  (chainStep o k (stateAfter o k)).2

lemma boundary_update_fixed (count difficulty ips next_difficulty next_ips : Nat) :
    boundary_update count 1 1 difficulty ips next_difficulty next_ips
      = (difficulty, ips) := by
  unfold boundary_update sub_epoch_check epoch_check
  by_cases h1 : count = 384 * (1 + 1)
  · by_cases h2 : count = 32256 * (1 + 1)
    · omega
    · simp [h1, h2]
  · simp [h1]

lemma stateAfter_counters (o : ChainOracles) (k : Nat) :
    (stateAfter o k).curr_sub_epoch = 1 ∧ (stateAfter o k).curr_epoch = 1 := by
  induction k with
  | zero => exact ⟨rfl, rfl⟩
  | succ k ih =>
      show ((chainStep o k (stateAfter o k)).1.curr_sub_epoch = 1 ∧ _)
      unfold chainStep
      exact ih

lemma blockAt_deficit_eq (o : ChainOracles) (k : Nat) :
    (blockAt o k).deficit_at_creation = deficit_after_dec ((stateAfter o k).deficit) :=
  rfl

lemma stateAfter_succ_deficit (o : ChainOracles) (k : Nat) :
    (stateAfter o (k + 1)).deficit
      = deficit_after_reset (deficit_after_dec ((stateAfter o k).deficit)) :=
  rfl

lemma stateAfter_succ_difficulty_eq (o : ChainOracles) (k : Nat) :
    (stateAfter o (k + 1)).difficulty
      = (boundary_update (o.sub_block_count k) (stateAfter o k).curr_sub_epoch
          (stateAfter o k).curr_epoch (stateAfter o k).difficulty
          (stateAfter o k).ips (o.next_difficulty_fn k) (o.next_ips_fn k)).1 :=
  rfl

lemma stateAfter_succ_ips_eq (o : ChainOracles) (k : Nat) :
    (stateAfter o (k + 1)).ips
      = (boundary_update (o.sub_block_count k) (stateAfter o k).curr_sub_epoch
          (stateAfter o k).curr_epoch (stateAfter o k).difficulty
          (stateAfter o k).ips (o.next_difficulty_fn k) (o.next_ips_fn k)).2 :=
  rfl

lemma stateAfter_difficulty (o : ChainOracles) (k : Nat) :
    (stateAfter o k).difficulty = o.difficulty_starting
      ∧ (stateAfter o k).ips = o.ips_starting := by
  induction k with
  | zero => exact ⟨rfl, rfl⟩
  | succ k ih =>
      have hc := stateAfter_counters o k
      rw [stateAfter_succ_difficulty_eq, stateAfter_succ_ips_eq, hc.1, hc.2,
        boundary_update_fixed]
      exact ih

lemma deficit_after_dec_bounds (d : Int) (h1 : 1 ≤ d) (h5 : d ≤ 5) :
    0 ≤ deficit_after_dec d ∧ deficit_after_dec d ≤ 4 := by
  unfold deficit_after_dec
  split_ifs <;> constructor <;> omega

lemma deficit_after_reset_bounds (d : Int) (g0 : 0 ≤ d) (g4 : d ≤ 4) :
    1 ≤ deficit_after_reset d ∧ deficit_after_reset d ≤ 5 := by
  unfold deficit_after_reset has_proof_flag
  by_cases h : d > 0
  · simp [h]
    omega
  · simp [h]

lemma stateAfter_deficit_bounds (o : ChainOracles) (k : Nat) :
    1 ≤ (stateAfter o k).deficit ∧ (stateAfter o k).deficit ≤ 5 := by
  induction k with
  | zero => exact ⟨show (1 : Int) ≤ 5 by norm_num, le_refl 5⟩
  | succ k ih =>
      rw [stateAfter_succ_deficit]
      rcases ih with ⟨h1, h5⟩
      rcases deficit_after_dec_bounds _ h1 h5 with ⟨g0, g4⟩
      exact deficit_after_reset_bounds _ g0 g4

lemma stateAfter_finished_slots (o : ChainOracles) (k : Nat) :
    (stateAfter o k).finished_slots = [] := by
  induction k with
  | zero => rfl
  | succ k ih =>
      have hfs : (stateAfter o (k + 1)).finished_slots
          = (if decide ((stateAfter o k).number_iters > o.slot_iters_fn k)
              then []
              else if decide ((stateAfter o k).number_iters > o.slot_iters_fn k)
                then (stateAfter o k).finished_slots ++ [slotTupleMk]
                else (stateAfter o k).finished_slots) := rfl
      rw [hfs]
      by_cases h : (stateAfter o k).number_iters > o.slot_iters_fn k
      · simp [h]
      · simp [h, ih]

/-- Claim C2: along every chain produced by get_consecutive_blocks from
genesis, the deficit starts at 5, the block construction step reads a
deficit that is exactly the previous deficit minus 1 (the decrement fires
on every block since the deficit is never 0 at the start of a step), the
deficit is reset to 5 exactly on blocks that carry the challenge-chain
infusion proof (the proof is present exactly when the decremented deficit
reached 0), and no observed deficit value is negative. -/
theorem c2_deficit_invariant (o : ChainOracles) :
    (stateAfter o 0).deficit = 5
    ∧ ∀ k,
        (blockAt o k).deficit_at_creation = (stateAfter o k).deficit - 1
        ∧ (stateAfter o (k + 1)).deficit
            = (if (blockAt o k).has_challenge_chain_ip_proof then 5
               else (stateAfter o k).deficit - 1)
        ∧ (blockAt o k).has_challenge_chain_ip_proof
            = decide ((blockAt o k).deficit_at_creation = 0)
        ∧ 0 ≤ (blockAt o k).deficit_at_creation
        ∧ 0 ≤ (stateAfter o k).deficit := by
  refine ⟨rfl, fun k => ?_⟩
  have hb := stateAfter_deficit_bounds o k
  have hdec : deficit_after_dec ((stateAfter o k).deficit)
      = (stateAfter o k).deficit - 1 := by
    unfold deficit_after_dec
    rw [if_pos (by omega)]
  have hproof : (blockAt o k).has_challenge_chain_ip_proof
      = has_proof_flag (deficit_after_dec ((stateAfter o k).deficit)) := rfl
  refine ⟨by rw [blockAt_deficit_eq, hdec], ?_, ?_, ?_, by omega⟩
  · rw [stateAfter_succ_deficit, hproof]
    unfold deficit_after_reset
    rw [hdec]
  · rw [hproof, blockAt_deficit_eq, hdec]
    unfold has_proof_flag
    by_cases h0 : (stateAfter o k).deficit - 1 > 0
    · rw [if_pos h0]
      have : ¬((stateAfter o k).deficit - 1 = 0) := by omega
      simp [this]
    · rw [if_neg h0]
      have : (stateAfter o k).deficit - 1 = 0 := by omega
      simp [this]
  · rw [blockAt_deficit_eq, hdec]; omega

/-- Concrete oracles used for the counterexamples: slot budget far above
the iteration count (no slot crossing ever), genesis iteration count 10,
starting difficulty 5, starting ips 7. -/
def c3o : ChainOracles :=
  ⟨fun _ => 1000, fun _ => 999, 10, fun _ => 0, fun _ => 0, fun _ => 0, 5, 7⟩

/-- Claim C3 counterexample: with the concrete oracles c3o, block 0 does
not carry a challenge-chain infusion proof (the deficit only decrements
from 5 to 4) yet its weight 10 strictly exceeds the genesis weight 5,
contradicting that weight strictly increases exactly at challenge
blocks; and block 1 has the same total_iters as block 0 (number_iters is
unchanged between slot crossings), contradicting that total_iters is
strictly increasing at every block. -/
theorem c3_counterexample :
    (blockAt c3o 0).has_challenge_chain_ip_proof = false
    ∧ (genesisState c3o).prev_weight < (blockAt c3o 0).weight
    ∧ (blockAt c3o 1).total_iters = (blockAt c3o 0).total_iters := by
  decide

/-- Claim C3 as amended: every block weight equals the previous block
weight plus the (never-changing) starting difficulty, so weight is
non-decreasing and, when the difficulty is positive, strictly increasing
at EVERY block, challenge block or not; total_iters equals the tracker
number_iters, which is unchanged at steps without a slot crossing and is
replaced by the freshly drawn proof iteration count at a crossing, so
total_iters is not strictly increasing block-to-block. -/
theorem c3_weight_total_iters_amended (o : ChainOracles) (k : Nat) :
    (blockAt o (k + 1)).weight = (blockAt o k).weight + o.difficulty_starting
    ∧ (0 < o.difficulty_starting →
        (blockAt o k).weight < (blockAt o (k + 1)).weight)
    ∧ ((blockAt o (k + 1)).crossed_slot = false →
        (blockAt o (k + 1)).total_iters = (blockAt o k).total_iters)
    ∧ ((blockAt o (k + 1)).crossed_slot = true →
        (blockAt o (k + 1)).total_iters = o.new_iters_fn (k + 1)) := by
  have hd := stateAfter_difficulty o (k + 1)
  have hc := stateAfter_counters o (k + 1)
  have hprev : (stateAfter o (k + 1)).prev_weight = (blockAt o k).weight := rfl
  have hweight : (blockAt o (k + 1)).weight
      = (stateAfter o (k + 1)).prev_weight
        + (boundary_update (o.sub_block_count (k + 1))
            (stateAfter o (k + 1)).curr_sub_epoch
            (stateAfter o (k + 1)).curr_epoch
            (stateAfter o (k + 1)).difficulty
            (stateAfter o (k + 1)).ips
            (o.next_difficulty_fn (k + 1)) (o.next_ips_fn (k + 1))).1 := rfl
  have hti : (blockAt o (k + 1)).total_iters
      = if decide ((stateAfter o (k + 1)).number_iters > o.slot_iters_fn (k + 1))
          then o.new_iters_fn (k + 1)
          else (stateAfter o (k + 1)).number_iters := rfl
  have hcross : (blockAt o (k + 1)).crossed_slot
      = decide ((stateAfter o (k + 1)).number_iters > o.slot_iters_fn (k + 1)) := rfl
  have hti0 : (blockAt o k).total_iters = (stateAfter o (k + 1)).number_iters := rfl
  have hw : (blockAt o (k + 1)).weight
      = (blockAt o k).weight + o.difficulty_starting := by
    rw [hweight, hprev, hc.1, hc.2, boundary_update_fixed, hd.1]
  refine ⟨hw, fun hpos => by omega, fun hnc => ?_, fun hcr => ?_⟩
  · rw [hti, hti0]
    rw [hcross] at hnc
    rw [hnc]
    simp
  · rw [hti]
    rw [hcross] at hcr
    rw [hcr]
    simp

/-- Claim C3 amended witness at the concrete oracles c3o and k = 0. -/
theorem c3_amended_witness :
    (blockAt c3o 1).weight = (blockAt c3o 0).weight + 5
    ∧ (blockAt c3o 0).weight < (blockAt c3o 1).weight
    ∧ (blockAt c3o 1).total_iters = (blockAt c3o 0).total_iters := by
  have h := c3_weight_total_iters_amended c3o 0
  exact ⟨h.1, h.2.1 (by decide), h.2.2.1 (by decide)⟩

/-- Concrete oracles with an immediate slot crossing: slot budget 1,
genesis iteration count 10. -/
def c5o : ChainOracles :=
  ⟨fun _ => 1, fun _ => 999, 10, fun _ => 0, fun _ => 0, fun _ => 0, 5, 7⟩

/-- Claim C5 counterexample: at the crossing in step 0 (number_iters 10
exceeds the slot budget 1) the append call adds one finished-slot tuple,
but the block built in the same step carries an empty finished-slot list
and the buffer after the step is also empty: the appended tuple is
retained nowhere, because self.finished_slots is reassigned to a fresh
empty value right after the append.  This refutes the claim that no
finished-slot tuple is silently dropped. -/
theorem c5_counterexample :
    (blockAt c5o 0).crossed_slot = true
    ∧ (blockAt c5o 0).tuples_appended = 1
    ∧ (blockAt c5o 0).finished_slots = []
    ∧ (stateAfter c5o 1).finished_slots = [] := by
  decide

/-- Claim C5 as amended: when number_iters exceeds slot_iters the
buffered tuple is appended and the buffer is then reassigned to a fresh
empty value, which discards the appended tuple instead of retaining it;
exactly one tuple is appended per crossing (at most one slot transition
is handled per block construction step), and the buffer, as well as the
finished-slot list of every produced block, is always empty. -/
theorem c5_buffer_amended (o : ChainOracles) (k : Nat) :
    (blockAt o k).tuples_appended
      = (if (blockAt o k).crossed_slot then 1 else 0)
    ∧ (blockAt o k).tuples_appended ≤ 1
    ∧ (blockAt o k).finished_slots = []
    ∧ (stateAfter o k).finished_slots = [] := by
  have hfs := stateAfter_finished_slots o k
  have hfs1 := stateAfter_finished_slots o (k + 1)
  have happ : (blockAt o k).tuples_appended
      = if decide ((stateAfter o k).number_iters > o.slot_iters_fn k) then 1 else 0 := rfl
  have hcross : (blockAt o k).crossed_slot
      = decide ((stateAfter o k).number_iters > o.slot_iters_fn k) := rfl
  have hbfs : (blockAt o k).finished_slots = (stateAfter o (k + 1)).finished_slots := rfl
  refine ⟨by rw [happ, hcross], ?_, by rw [hbfs, hfs1], hfs⟩
  rw [happ]
  split_ifs <;> omega

/-- Claim C7 counterexample: with the epoch counters at their
initialised value 1 (the source never increments self.curr_sub_epoch or
self.curr_epoch), the sub-epoch check does NOT fire at sub-block count
384, and at count 32256 difficulty and ips are NOT recomputed (they stay
at 3 and 4 instead of becoming the adjustment values 30 and 40). -/
theorem c7_counterexample :
    sub_epoch_check 384 1 = false
    ∧ boundary_update 32256 1 1 3 4 30 40 = (3, 4) := by
  decide

/-- Claim C7 as amended: the boundary checks are count-threshold checks
of the source form count = 384 * (curr_sub_epoch + 1) and
count = 32256 * (curr_epoch + 1); the sub-epoch check guards (is
evaluated before) the epoch check, so difficulty and ips are replaced
only when both fire; with the counters frozen at their initial value 1
the sub-epoch check fires exactly at count 768 and the recomputation is
unreachable (768 and 64512 cannot hold at once), so along every chain
produced from genesis the difficulty and ips never change from their
starting values. -/
theorem c7_boundary_amended :
    (∀ count k, sub_epoch_check count k = decide (count = 384 * (k + 1)))
    ∧ (∀ count m, epoch_check count m = decide (count = 32256 * (m + 1)))
    ∧ (∀ count k m d i nd ni,
        boundary_update count k m d i nd ni
          = (if sub_epoch_check count k && epoch_check count m then (nd, ni)
             else (d, i)))
    ∧ (∀ count, sub_epoch_check count 1 = decide (count = 768))
    ∧ (∀ count d i nd ni, boundary_update count 1 1 d i nd ni = (d, i))
    ∧ (∀ (o : ChainOracles) (j : Nat),
        (stateAfter o j).difficulty = o.difficulty_starting
          ∧ (stateAfter o j).ips = o.ips_starting) := by
  refine ⟨?_, ?_, ?_, ?_, ?_, stateAfter_difficulty⟩
  · intro count k
    unfold sub_epoch_check
    by_cases h : count = 384 * (k + 1) <;> simp [h]
  · intro count m
    unfold epoch_check
    by_cases h : count = 32256 * (m + 1) <;> simp [h]
  · intro count k m d i nd ni
    unfold boundary_update
    by_cases h1 : sub_epoch_check count k <;>
      by_cases h2 : epoch_check count m <;> simp [h1, h2]
  · intro count
    unfold sub_epoch_check
    by_cases h : count = 768
    · simp [h]
    · have : count ≠ 384 * (1 + 1) := by omega
      simp [h, this]
  · intro count d i nd ni
    exact boundary_update_fixed count d i nd ni

/-! # create_foliage (block_tools.py lines 674-800)

Programs, hashes, puzzle hashes, signatures and keys are Nat; a coin
puzzle hash is Option Nat because the reward_puzzlehash parameter may be
None and is passed through unchanged.  External calls are oracle fields:
the extension-data randomness, the name-puzzle-condition evaluation
(collapsed with additions_for_npc into the addition and removal lists of
a generator program), the BIP158 filter encoding composed with std_hash,
the two Merkle-set roots (as functions of the exact element sequences fed
to the sets; the puzzle-hash grouping of the addition set happens inside
the oracle), the Program tree hash, the pool-key and plot-key signing
functions, and the signature aggregation. -/

structure Coin where
  parent_kind : Nat
  height : Nat
  puzzle_hash : Option Nat
  amount : Nat
deriving DecidableEq

/-- Modelled from the spec: `create_pool_coin` (src/consensus/coinbase.py
is not part of this snapshot) synthesizes the pool reward coin
deterministically keyed by the height and the target puzzle hash, with
the given amount (spec 4.5 step 1). -/
def create_pool_coin (height : Nat) (puzzle_hash : Option Nat) (amount : Nat) : Coin :=
  ⟨0, height, puzzle_hash, amount⟩

/-- Modelled from the spec: `create_farmer_coin` (src/consensus/coinbase.py
is not part of this snapshot) synthesizes the farmer reward coin
deterministically keyed by the height and the target puzzle hash, with
the given amount (spec 4.5 step 1). -/
def create_farmer_coin (height : Nat) (puzzle_hash : Option Nat) (amount : Nat) : Coin :=
  ⟨1, height, puzzle_hash, amount⟩

/-- Line 696: `fee_reward = uint64(calculate_base_farmer_reward(height) + fees)`;
`calculate_base_farmer_reward` (src/consensus/block_rewards.py, external)
is the oracle `base_reward`. -/
def foliage_fee_reward (base_reward : Nat → Nat) (height fees : Nat) : Nat :=
  base_reward height + fees

/-- Line 731: the pool reward coin built inside create_foliage, from the
raw reward_puzzlehash parameter. -/
def foliage_pool_coin (base_reward : Nat → Nat) (height fees : Nat)
    (reward_puzzlehash : Option Nat) : Coin :=
  create_pool_coin height reward_puzzlehash
    (foliage_fee_reward base_reward height fees)

/-- Line 732: the farmer reward coin built inside create_foliage, from
the raw reward_puzzlehash parameter. -/
def foliage_farmer_coin (base_reward : Nat → Nat) (height fees : Nat)
    (reward_puzzlehash : Option Nat) : Coin :=
  create_farmer_coin height reward_puzzlehash
    (foliage_fee_reward base_reward height fees)

/-- Lines 711-715: the puzzle hashes fed to the transaction filter
default to self.farmer_ph and self.pool_ph, and are both replaced by
reward_puzzlehash when that parameter is not None. -/
def filter_phs (farmer_ph_default pool_ph_default : Nat)
    (reward_puzzlehash : Option Nat) : Nat × Nat :=
  match reward_puzzlehash with
  | none => (farmer_ph_default, pool_ph_default)
  | some ph => (ph, ph)

structure FoliageSubBlockData where
  unfinished_reward_block_hash : Nat
  pool_target : Nat × Nat
  pool_target_signature : Nat
  farmer_reward_puzzle_hash : Nat
  extension_data : Nat
  prev_foliage_block_hash : Nat
deriving DecidableEq

structure FoliageSubBlock where
  prev_foliage_block_hash : Nat
  reward_block_hash : Nat
  is_block : Bool
  data : FoliageSubBlockData
  plot_key_signature : Option Nat
deriving DecidableEq

structure TransactionsInfo where
  generator_hash : Nat
  aggregated_signature : Nat
  fees : Nat
  cost : Nat
  reward_claims_incorporated : List Coin
deriving DecidableEq

structure FoliageBlock where
  prev_block_hash : Nat
  timestamp : Nat
  filter_hash : Nat
  additions_root : Nat
  removals_root : Nat
  transactions_info : Option TransactionsInfo
deriving DecidableEq

structure FoliageOracles where
  base_reward : Nat → Nat
  extension_data : Nat
  npc_additions : Nat → List Coin
  npc_removals : Nat → List Nat
  filter_hash : List (Option Nat) → Nat
  additions_root : List Coin → Nat
  removals_root : List Nat → Nat
  tree_hash : Nat → Nat
  pool_signature : Nat × Nat → Nat → Option Nat
  aggregate : Nat → Nat → Nat
  plot_signature : FoliageSubBlockData → Nat → Option Nat

inductive FoliageError where
  | missingPoolSignature
deriving DecidableEq

/-- The source returns the tuple
(foliage_sub_block, foliage_block, generator_hash, transactions); the
foliage_block slot is Option-typed because its consumer field
(FullBlock.foliage_block, HeaderBlock.foliage_block) is Optional. -/
structure FoliageResult where
  foliage_sub_block : FoliageSubBlock
  foliage_block : Option FoliageBlock
  generator_hash : Nat
  transactions : Option Nat
deriving DecidableEq

/-- Mirrors create_foliage.  `pool_public_key` stands for the
`proof_of_space.pool_public_key` read on line 757.  The
`assert pool_target_signature is not None` on line 759 is the
missingPoolSignature failure.  A TransactionsInfo is built only when
`is_transaction` holds (lines 785-789), but the FoliageBlock itself is
constructed and returned unconditionally (lines 791-800). -/
def create_foliage (o : FoliageOracles)
    (farmer_ph_default pool_ph_default pool_public_key : Nat)
    (height fees : Nat) (aggsig : Option Nat) (transactions : Option Nat)
    (reward_claims_incorporated : List Coin) (plot_pk : Nat)
    (prev_foliage_block_hash reward_block_hash : Nat) (is_block : Bool)
    (timestamp prev_block_hash unfinished_reward_block_hash : Nat)
    (is_transaction : Bool) (reward_puzzlehash : Option Nat) :
    Except FoliageError FoliageResult :=
  let cost := 0
  let tx_additions : List Coin :=
    match transactions with
    | some t => o.npc_additions t
    | none => []
  let tx_removals : List Nat :=
    match transactions with
    | some t => o.npc_removals t
    | none => []
  let phs := filter_phs farmer_ph_default pool_ph_default reward_puzzlehash
  let byte_array_tx : List (Option Nat) :=
    tx_additions.map (fun c => c.puzzle_hash)
      ++ tx_removals.map some ++ [some phs.1, some phs.2]
  let filter_hash := o.filter_hash byte_array_tx
  let pool_coin := foliage_pool_coin o.base_reward height fees reward_puzzlehash
  let farmer_coin := foliage_farmer_coin o.base_reward height fees reward_puzzlehash
  let additions_root := o.additions_root (tx_additions ++ [pool_coin, farmer_coin])
  let removals_root := o.removals_root tx_removals
  let generator_hash : Nat :=
    match transactions with
    | some t => o.tree_hash t
    | none => 0
  let pool_target : Nat × Nat := (phs.2, height)
  match o.pool_signature pool_target pool_public_key with
  | none => .error .missingPoolSignature
  | some pool_target_signature =>
      let final_aggsig : Nat :=
        match aggsig with
        | none => pool_target_signature
        | some a => o.aggregate pool_target_signature a
      let fsbd : FoliageSubBlockData :=
        ⟨unfinished_reward_block_hash, pool_target, pool_target_signature,
         phs.1, o.extension_data, prev_foliage_block_hash⟩
      let foliage_sub_block : FoliageSubBlock :=
        ⟨prev_foliage_block_hash, reward_block_hash, is_block, fsbd,
         o.plot_signature fsbd plot_pk⟩
      let transactions_info : Option TransactionsInfo :=
        if is_transaction then
          some ⟨generator_hash, final_aggsig, fees, cost,
            reward_claims_incorporated⟩
        else none
      let foliage_block : FoliageBlock :=
        ⟨prev_block_hash, timestamp, filter_hash, additions_root,
         removals_root, transactions_info⟩
      .ok ⟨foliage_sub_block, some foliage_block, generator_hash, transactions⟩

/-- Concrete oracles for the foliage counterexample: every external call
returns a constant, and the pool signature succeeds. -/
def c6o : FoliageOracles :=
  ⟨fun _ => 0, 0, fun _ => [], fun _ => [], fun _ => 0, fun _ => 0,
   fun _ => 0, fun _ => 0, fun _ _ => some 1, fun _ _ => 0, fun _ _ => some 2⟩

/-- Claim C6 counterexample: a call with is_transaction = false still
returns a FoliageBlock (with no TransactionsInfo inside), refuting that
for non-transaction blocks create_foliage emits no FoliageBlock. -/
theorem c6_counterexample :
    (create_foliage c6o 0 0 0 0 0 none none [] 0 0 0 false 0 0 0 false none).map
        (fun r => (r.foliage_block.isSome,
          r.foliage_block.elim true (fun fb => fb.transactions_info.isNone)))
      = .ok (true, true) := by
  rfl

/-- Claim C6 as amended: whenever create_foliage succeeds it emits
FoliageSubBlock data AND a FoliageBlock, for transaction and
non-transaction blocks alike; only the TransactionsInfo embedded inside
the FoliageBlock is conditional, present exactly in the
transaction-block case. -/
theorem c6_foliage_amended (o : FoliageOracles)
    (farmer_ph_default pool_ph_default pool_public_key : Nat)
    (height fees : Nat) (aggsig : Option Nat) (transactions : Option Nat)
    (reward_claims_incorporated : List Coin) (plot_pk : Nat)
    (prev_foliage_block_hash reward_block_hash : Nat) (is_block : Bool)
    (timestamp prev_block_hash unfinished_reward_block_hash : Nat)
    (is_transaction : Bool) (reward_puzzlehash : Option Nat)
    (r : FoliageResult)
    (h : create_foliage o farmer_ph_default pool_ph_default pool_public_key
        height fees aggsig transactions reward_claims_incorporated plot_pk
        prev_foliage_block_hash reward_block_hash is_block timestamp
        prev_block_hash unfinished_reward_block_hash is_transaction
        reward_puzzlehash = .ok r) :
    ∃ fb, r.foliage_block = some fb
      ∧ fb.transactions_info.isSome = is_transaction := by
  unfold create_foliage at h
  dsimp only at h
  cases hsig : o.pool_signature
      ((filter_phs farmer_ph_default pool_ph_default reward_puzzlehash).2,
        height) pool_public_key with
  | none => rw [hsig] at h; cases h
  | some s =>
      rw [hsig] at h
      cases h
      refine ⟨_, rfl, ?_⟩
      by_cases ht : is_transaction <;> simp [ht]

/-- Claim C6 amended witness: at the concrete oracles c6o with
is_transaction = true the returned FoliageBlock exists and carries a
TransactionsInfo. -/
theorem c6_amended_witness :
    ∃ fb, (⟨⟨0, 0, false, ⟨0, (0, 0), 1, 0, 0, 0⟩, some 2⟩, some ⟨0, 0, 0, 0, 0,
        some ⟨0, 1, 0, 0, []⟩⟩, 0, none⟩ : FoliageResult).foliage_block = some fb
      ∧ fb.transactions_info.isSome = true := by
  exact c6_foliage_amended c6o 0 0 0 0 0 none none [] 0 0 0 false 0 0 0 true
    none _ (by rfl)

/-- Claim C10: the pool and farmer reward coins built inside
create_foliage always carry the same amount, equal to
calculate_base_farmer_reward(height) + fees, and both take the raw
reward_puzzlehash parameter as their puzzle hash, even when that
parameter is None; the transaction filter, by contrast, falls back to
the default farmer and pool puzzle hashes when the parameter is None. -/
theorem c10_reward_coins (base_reward : Nat → Nat) (height fees : Nat)
    (reward_puzzlehash : Option Nat) (farmer_ph_default pool_ph_default : Nat) :
    (foliage_pool_coin base_reward height fees reward_puzzlehash).amount
        = base_reward height + fees
    ∧ (foliage_farmer_coin base_reward height fees reward_puzzlehash).amount
        = base_reward height + fees
    ∧ (foliage_pool_coin base_reward height fees reward_puzzlehash).puzzle_hash
        = reward_puzzlehash
    ∧ (foliage_farmer_coin base_reward height fees reward_puzzlehash).puzzle_hash
        = reward_puzzlehash
    ∧ (foliage_pool_coin base_reward height fees none).puzzle_hash = none
    ∧ (foliage_farmer_coin base_reward height fees none).puzzle_hash = none
    ∧ filter_phs farmer_ph_default pool_ph_default none
        = (farmer_ph_default, pool_ph_default) := by
  exact ⟨rfl, rfl, rfl, rfl, rfl, rfl, rfl⟩

end BlockToolsModel
